import Mathlib

/-!
Shallow embedding of the triage catwalk evaluation engine
(src/triage/component/catwalk/evaluation.py) in Lean 4.

Python values are modelled as follows: prediction scores and metric values
are exact rationals (Python float arithmetic is modelled as exact rational
arithmetic), labels are `Option ℚ` with `none` standing for NaN (missing
ground truth), Python `int()` truncation is `Int.tdiv`, raised exceptions
are an explicit `Except PyError` result, and the database touched by
`_write_to_db` is an explicit `DBState` value holding the rows of the two
evaluation tables.
-/

namespace Triage

/-- A label value: `none` models numpy NaN (missing ground truth),
`some q` a finite numeric label. -/
abbrev Lbl := Option ℚ

/-- A Python attribute value, as needed to model the `greater_is_better`
attribute of metric functions.  Python `==` identifies `True` with `1`
and `False` with `0`, which `pyEq` reproduces. -/
inductive PyVal where
  | bool (b : Bool)
  | int (z : ℤ)
  | rat (q : ℚ)
  | str (s : String)
deriving DecidableEq

/-- Numeric view of a Python value (`True` is `1`, `False` is `0`). -/
def PyVal.toNum : PyVal → Option ℚ
  | .bool b => some (if b then 1 else 0)
  | .int z => some (z : ℚ)
  | .rat q => some q
  | .str _ => none

/-- Python `==` on attribute values: numeric values compare by value
(so `1 == True` holds), strings compare as strings, cross-kind
comparisons are unequal. -/
def pyEq (a b : PyVal) : Bool :=
  match a.toNum, b.toNum with
  | some x, some y => decide (x = y)
  | _, _ =>
    match a, b with
    | .str s, .str t => s == t
    | _, _ => false

/-- Whether a Python value is an actual boolean object. -/
def PyVal.isBool : PyVal → Bool
  | .bool _ => true
  | _ => false

/-- Exceptions raised by the evaluation module.  `unknownMetricError` is the
class declared in the external `metrics` module; `attributeError`,
`nameError` and `valueError` are the builtin Python exceptions. -/
inductive PyError where
  | valueError (msg : String)
  | nameError
  | attributeError
  | unknownMetricError
deriving DecidableEq

/-- ASCII lower-casing of one character, as Python `str.lower` does for
the strings appearing here. -/
def charLower (c : Char) : Char :=
  if c.toNat ≥ 65 ∧ c.toNat ≤ 90 then Char.ofNat (c.toNat + 32) else c

/-- Python `matrix_type.lower()`. -/
def strLower (s : String) : String := String.mk (s.data.map charLower)

/-- A metric calculation function: a Python function object taking
`(predictions_proba, predictions_binary, labels, parameters)` and returning
a numeric score, together with its optional `greater_is_better` attribute
(`none` when the attribute is absent). -/
structure MetricFn where
  call : Option (List ℚ) → List ℕ → List Lbl → List (String × ℚ) → ℚ
  greater_is_better : Option PyVal

/-- The metric registry: a Python dict from metric name to function,
modelled as an insertion-ordered association list. -/
abbrev Registry := List (String × MetricFn)

/-- Python dict lookup (`reg[name]` / `name in reg`). -/
def lookupReg (r : Registry) (name : String) : Option MetricFn :=
  (r.find? (fun p => p.1 == name)).map (fun p => p.2)

/-- One step of Python `dict.update`: overwrite the value at an existing
key in place, or append a fresh key at the end. -/
def regSet (r : Registry) (k : String) (v : MetricFn) : Registry :=
  if r.any (fun p => p.1 == k) then
    r.map (fun p => if p.1 == k then (k, v) else p)
  else
    r ++ [(k, v)]

/-- Python `dict.update` on the registry. -/
def registryUpdate (r : Registry) (upd : List (String × MetricFn)) : Registry :=
  upd.foldl (fun acc p => regSet acc p.1 p.2) r

/-- The `cutoff_index` local of `generate_binary_at_x`: for
`unit == 'percentile'` it is `int(len(test_predictions) * (x_value / 100.00))`
— Python `int()` truncates the product toward zero, which on the exact
rational `n * x / 100` is the truncating division of `n * x.num` by
`100 * x.den` (`Int.tdiv`; the lemma `percentile_cutoff_eq_floor` below
identifies it with the floor for non-negative cutoffs).  For any other
unit the `x_value` is used directly. -/
def binaryCutoffIndex (n : ℕ) (x_value : ℚ) (unit : String) : ℚ :=
  if unit = "percentile" then
    ((Int.tdiv ((n : ℤ) * x_value.num) (100 * (x_value.den : ℤ))) : ℚ)
  else
    x_value

/-- `generate_binary_at_x(test_predictions, x_value, unit)` from
evaluation.py: position `x` receives 1 iff `x < cutoff_index`. -/
def generate_binary_at_x (test_predictions : List ℚ) (x_value : ℚ)
    (unit : String) : List ℕ :=
  (List.range test_predictions.length).map
    (fun (x : ℕ) => if (x : ℚ) <
      binaryCutoffIndex test_predictions.length x_value unit then 1 else 0)

/-- A parameter combination: a Python dict of metric parameters,
modelled as an insertion-ordered association list. -/
abbrev Params := List (String × ℚ)

/-- One step of Python `dict.update` on a parameter dict. -/
def dictSet (d : Params) (k : String) (v : ℚ) : Params :=
  if d.any (fun p => p.1 == k) then
    d.map (fun p => if p.1 == k then (k, v) else p)
  else
    d ++ [(k, v)]

/-- Python `dict.update` on a parameter dict (`full_params.update(threshold_config)`). -/
def dictUpdate (d upd : Params) : Params :=
  upd.foldl (fun acc p => dictSet acc p.1 p.2) d

/-- Rendering of a rational the way the parameter string renders values. -/
def ratStr (q : ℚ) : String :=
  if q.den = 1 then toString q.num else toString q.num ++ "/" ++ toString q.den

/-- `'/'.join('{val}_{key}' for key, val in full_params.items())`. -/
def renderParamString (full_params : Params) : String :=
  String.intercalate "/" (full_params.map (fun kv => ratStr kv.2 ++ "_" ++ kv.1))

/-- One evaluation ORM row (results_schema.TrainEvaluation /
TestEvaluation).  The key fields stamped later by `_write_to_db` start out
as `none`, modelling the unset ORM attributes. -/
structure Evaluation where
  metric : String
  parameter : String
  value : ℚ
  num_labeled_examples : ℕ
  num_labeled_above_threshold : ℕ
  num_positive_labels : ℕ
  sort_seed : ℤ
  model_id : Option ℕ := none
  evaluation_start_time : Option ℕ := none
  evaluation_end_time : Option ℕ := none
  as_of_date_frequency : Option String := none
deriving DecidableEq

/-- The persistent store: the rows of the train and test evaluation tables. -/
structure DBState where
  train : List Evaluation
  test : List Evaluation
deriving DecidableEq

/-- The `filter_by` condition of the delete step of `_write_to_db`. -/
def matchesKey (mid st et : ℕ) (freq : String) (e : Evaluation) : Bool :=
  decide (e.model_id = some mid ∧ e.evaluation_start_time = some st ∧
    e.evaluation_end_time = some et ∧ e.as_of_date_frequency = some freq)

/-- The stamping step of `_write_to_db`: bind the key fields onto a record. -/
def stamp (mid st et : ℕ) (freq : String) (e : Evaluation) : Evaluation :=
  { e with
    model_id := some mid
    evaluation_start_time := some st
    evaluation_end_time := some et
    as_of_date_frequency := some freq }

/-- `_write_to_db`: select the table from `matrix_type` (an unrecognized
string leaves `table_obj` unbound, a NameError at `session.query`), delete
all rows matching the key, stamp the new records and insert them, commit. -/
def _write_to_db (mid st et : ℕ) (freq : String)
    (evaluations : List Evaluation) (matrix_type : String)
    (db : DBState) : Except PyError DBState :=
  if strLower matrix_type = "train" then
    .ok { db with train :=
      db.train.filter (fun e => !(matchesKey mid st et freq e)) ++
      evaluations.map (stamp mid st et freq) }
  else if strLower matrix_type = "test" then
    .ok { db with test :=
      db.test.filter (fun e => !(matchesKey mid st et freq e)) ++
      evaluations.map (stamp mid st et freq) }
  else
    .error .nameError

/-- The per-group threshold configuration: the optional `percentiles` and
`top_n` entries of a `thresholds` dict. -/
structure Thresholds where
  percentiles : Option (List ℚ) := none
  top_n : Option (List ℚ) := none
deriving DecidableEq

/-- One metric group of the evaluator configuration. -/
structure MetricGroup where
  metrics : List String
  parameters : Option (List Params) := none
  thresholds : Option Thresholds := none
deriving DecidableEq

/-- The per-instance state of a ModelEvaluator (the class-level
`available_metrics` dict is shared state and is passed separately). -/
structure Evaluator where
  metric_groups : List MetricGroup
  training_metric_groups : List MetricGroup
  sort_seed : ℤ

/-- `ModelEvaluator._validate_metrics`: for each custom metric, raise
ValueError when the function has no `greater_is_better` attribute, or when
`met.greater_is_better not in (True, False)` (a membership test by Python
`==`, reproduced by `pyEq`). -/
def _validate_metrics : List (String × MetricFn) → Except PyError Unit
  | [] => .ok ()
  | (name, met) :: rest =>
    match met.greater_is_better with
    | none => .error (.valueError ("Custom metric " ++ name ++
        " missing greater_is_better attribute"))
    | some v =>
      if pyEq v (.bool true) || pyEq v (.bool false) then
        _validate_metrics rest
      else
        .error (.valueError ("For custom metric " ++ name ++
          " greater_is_better must be boolean True or False"))

/-- `ModelEvaluator.__init__`: `self.sort_seed = sort_seed or int(time.time())`
(a falsy argument — absent or zero — is replaced by the wall clock, passed
here explicitly), then, when `custom_metrics` is truthy (a non-empty dict),
validate them and `update` the class-level registry in place.  Returns the
updated class registry together with the instance state. -/
def ModelEvaluator.init (classRegistry : Registry)
    (metric_groups training_metric_groups : List MetricGroup)
    (sort_seed : Option ℤ) (custom_metrics : Option (List (String × MetricFn)))
    (wall_clock : ℤ) : Except PyError (Registry × Evaluator) :=
  let seed : ℤ :=
    match sort_seed with
    | none => wall_clock
    | some s => if s = 0 then wall_clock else s
  match custom_metrics with
  | none => .ok (classRegistry, ⟨metric_groups, training_metric_groups, seed⟩)
  | some cm =>
    if cm.isEmpty then
      .ok (classRegistry, ⟨metric_groups, training_metric_groups, seed⟩)
    else
      match _validate_metrics cm with
      | .ok _ =>
        .ok (registryUpdate classRegistry cm,
          ⟨metric_groups, training_metric_groups, seed⟩)
      | .error err => .error err

/-- Python attribute lookup `self.available_metrics[name]`: `__init__`
never assigns an instance attribute of that name, so every instance reads
(and `update` mutates) the single class-level dict, modelled as the
ambient `classRegistry` shared by all instances. -/
def ModelEvaluator.resolveMetric (classRegistry : Registry) (_self : Evaluator)
    (name : String) : Option MetricFn :=
  lookupReg classRegistry name

/-- A stand-in metric function: the scoring functions live in the external
`metrics` module, which the spec scopes out (§1: metric functions are
external collaborators).  Only the registry keys and the
`greater_is_better` attribute are observable to the code under proof. -/
def externalMetric : MetricFn := ⟨fun _ _ _ _ => 0, some (.bool true)⟩

/-- The initial class-level `available_metrics` dict of evaluation.py:
the keys are from the source; the values stand in for the external metric
functions. -/
def available_metrics : Registry :=
  [("precision@", externalMetric), ("recall@", externalMetric),
   ("fbeta@", externalMetric), ("f1", externalMetric),
   ("accuracy", externalMetric), ("roc_auc", externalMetric),
   ("average precision score", externalMetric),
   ("true positives@", externalMetric), ("true negatives@", externalMetric),
   ("false positives@", externalMetric), ("false negatives@", externalMetric),
   ("fpr@", externalMetric)]

/-- Stable insertion of a (score, label) pair into a descending-sorted
list: the pair goes in front of the first entry whose score is not
larger. -/
def insertByScore (x : ℚ × Lbl) : List (ℚ × Lbl) → List (ℚ × Lbl)
  | [] => [x]
  | y :: rest => if y.1 ≤ x.1 then x :: y :: rest else y :: insertByScore x rest

/-- Modelled from the spec: `sort_predictions_and_labels` lives in
triage/component/catwalk/utils.py, which is not under src/.  Spec §4.1:
co-sort the parallel score and label sequences by descending score with a
deterministic, seed-dependent tie-break.  Modelled as a stable descending
insertion sort; the seed argument is kept (a stable order is one admissible
deterministic tie-break, and no claim below depends on the tie order). -/
def sort_predictions_and_labels (predictions_proba : List ℚ)
    (labels : List Lbl) (_sort_seed : ℤ) : List ℚ × List Lbl :=
  let sorted := (predictions_proba.zip labels).foldr insertByScore []
  (sorted.map (fun p => p.1), sorted.map (fun p => p.2))

/-- numpy boolean-mask indexing `arr[mask]` for parallel lists. -/
def applyMask {α : Type} (mask : List Bool) (xs : List α) : List α :=
  ((mask.zip xs).filter (fun p => p.1)).map (fun p => p.2)

/-- Constructor for the evaluation record built in the inner loop of
`_generate_evaluations` (the key fields stay unset until `_write_to_db`). -/
def mkEvaluation (metric parameter_string : String) (value : ℚ)
    (nle nlat npl : ℕ) (seed : ℤ) : Evaluation :=
  { metric := metric
    parameter := parameter_string
    value := value
    num_labeled_examples := nle
    num_labeled_above_threshold := nlat
    num_positive_labels := npl
    sort_seed := seed }

/-- The inner `for parameter_combination in parameters` loop of
`_generate_evaluations`: compute the metric value, build the parameter
string, pick the table class (`table_obj` stays unbound for an
unrecognized `matrix_type`, so its first use raises NameError — no
default table exists), and append the record. -/
def genParamsLoop (f : MetricFn) (seed : ℤ) (metric : String)
    (threshold_config : Params) (proba : Option (List ℚ)) (binary : List ℕ)
    (labels : List Lbl) (matrix_type : String) (nle nlat npl : ℕ) :
    List Params → Except PyError (List Evaluation)
  | [] => .ok []
  | p :: ps =>
    let value := f.call proba binary labels p
    let full_params := dictUpdate p threshold_config
    let parameter_string := renderParamString full_params
    if strLower matrix_type = "train" ∨ strLower matrix_type = "test" then
      match genParamsLoop f seed metric threshold_config proba binary labels
          matrix_type nle nlat npl ps with
      | .ok rest =>
        .ok (mkEvaluation metric parameter_string value nle nlat npl seed :: rest)
      | .error err => .error err
    else
      .error .nameError

/-- The outer `for metric in metrics` loop of `_generate_evaluations`.
At the raise site the source reads `raise metrics.UnknownMetricError()`,
but the method parameter `metrics` (the list of metric names) shadows the
`metrics` module there, so the attribute lookup on the list raises
AttributeError instead of constructing an UnknownMetricError. -/
def genMetricsLoop (available : Registry) (seed : ℤ) (parameters : List Params)
    (threshold_config : Params) (proba : Option (List ℚ)) (binary : List ℕ)
    (labels : List Lbl) (matrix_type : String) (nle nlat npl : ℕ) :
    List String → Except PyError (List Evaluation)
  | [] => .ok []
  | m :: ms =>
    match lookupReg available m with
    | some f =>
      match genParamsLoop f seed m threshold_config proba binary labels
          matrix_type nle nlat npl parameters with
      | .ok evs =>
        match genMetricsLoop available seed parameters threshold_config proba
            binary labels matrix_type nle nlat npl ms with
        | .ok rest => .ok (evs ++ rest)
        | .error err => .error err
      | .error err => .error err
    | none => .error .attributeError

/-- `ModelEvaluator._generate_evaluations`: the three summary counts are
computed once per call, then the metric × parameter loops run. -/
def _generate_evaluations (available : Registry) (seed : ℤ)
    (metricNames : List String) (parameters : List Params)
    (threshold_config : Params) (predictions_proba : Option (List ℚ))
    (predictions_binary : List ℕ) (labels : List Lbl)
    (matrix_type : String) : Except PyError (List Evaluation) :=
  genMetricsLoop available seed parameters threshold_config predictions_proba
    predictions_binary labels matrix_type
    labels.length (predictions_binary.count 1)
    (labels.countP (fun l => l == some 1)) metricNames

/-- The argument tuple of one `_generate_evaluations` invocation. -/
structure GenCall where
  metricNames : List String
  parameters : List Params
  threshold_config : Params
  predictions_proba : Option (List ℚ)
  predictions_binary : List ℕ
  labels : List Lbl
  matrix_type : String
deriving DecidableEq

/-- The sequence of `_generate_evaluations` invocations (with their exact
arguments) that `evaluate` issues for one metric group, in source order:
the full-population call when the group has no `thresholds` key, then one
call per configured percentile, then one call per configured top_n value.
The full-population call passes the raw `predictions_proba` argument of
`evaluate` (not the sorted copy) and the unmasked sorted labels; the
thresholded calls pass `None` for the scores and NaN-mask both the binary
predictions and the labels. -/
def genCallsForGroup (predictions_proba predictions_proba_sorted : List ℚ)
    (labels_sorted : List Lbl) (matrix_type : String) (group : MetricGroup) :
    List GenCall :=
  let parameters := group.parameters.getD [[]]
  let nan_mask := labels_sorted.map (fun l => l.isSome)
  (if group.thresholds.isNone then
    [{ metricNames := group.metrics
       parameters := parameters
       threshold_config := []
       predictions_proba := some predictions_proba
       predictions_binary :=
         generate_binary_at_x predictions_proba_sorted 100 "percentile"
       labels := labels_sorted
       matrix_type := matrix_type }]
   else []) ++
  ((group.thresholds.map (fun t => t.percentiles.getD [])).getD []).map
    (fun pct =>
      { metricNames := group.metrics
        parameters := parameters
        threshold_config := [("pct", pct)]
        predictions_proba := none
        predictions_binary := applyMask nan_mask
          (generate_binary_at_x predictions_proba_sorted pct "percentile")
        labels := applyMask nan_mask labels_sorted
        matrix_type := matrix_type }) ++
  ((group.thresholds.map (fun t => t.top_n.getD [])).getD []).map
    (fun abs =>
      { metricNames := group.metrics
        parameters := parameters
        threshold_config := [("abs", abs)]
        predictions_proba := none
        predictions_binary := applyMask nan_mask
          (generate_binary_at_x predictions_proba_sorted abs "top_n")
        labels := applyMask nan_mask labels_sorted
        matrix_type := matrix_type })

/-- Run a sequence of generator invocations, concatenating the produced
records (`evaluations = evaluations + self._generate_evaluations(...)`);
the first raised exception aborts everything after it. -/
def runGenCalls (available : Registry) (seed : ℤ) :
    List GenCall → Except PyError (List Evaluation)
  | [] => .ok []
  | c :: rest =>
    match _generate_evaluations available seed c.metricNames c.parameters
        c.threshold_config c.predictions_proba c.predictions_binary
        c.labels c.matrix_type with
    | .ok evs =>
      match runGenCalls available seed rest with
      | .ok more => .ok (evs ++ more)
      | .error err => .error err
    | .error err => .error err

/-- `ModelEvaluator.evaluate`: co-sort, choose the metric-group set from
`matrix_type` (raising ValueError for an unrecognized value), generate all
evaluation records group by group (the three per-group loop bodies are
flattened into the explicit `genCallsForGroup` argument list, preserving
source order and abort-on-first-exception), then persist the whole batch
with a single `_write_to_db` call. -/
def ModelEvaluator.evaluate (classRegistry : Registry) (self : Evaluator)
    (predictions_proba : List ℚ) (labels : List Lbl)
    (model_id evaluation_start_time evaluation_end_time : ℕ)
    (as_of_date_frequency matrix_type : String) (db : DBState) :
    Except PyError DBState :=
  let sorted := sort_predictions_and_labels predictions_proba labels
    self.sort_seed
  let predictions_proba_sorted := sorted.1
  let labels_sorted := sorted.2
  match (if strLower matrix_type = "train" then
      Except.ok self.training_metric_groups
    else if strLower matrix_type = "test" then
      Except.ok self.metric_groups
    else
      Except.error (PyError.valueError ("metric set " ++ matrix_type ++
        " unrecognized. Please select Train or Test")) :
      Except PyError (List MetricGroup)) with
  | .error err => .error err
  | .ok groups =>
    match runGenCalls classRegistry self.sort_seed
        (groups.flatMap (genCallsForGroup predictions_proba
          predictions_proba_sorted labels_sorted matrix_type)) with
    | .error err => .error err
    | .ok evaluations =>
      _write_to_db model_id evaluation_start_time evaluation_end_time
        as_of_date_frequency evaluations matrix_type db

/-- Whether an evaluation-module computation succeeded. -/
def exceptIsOk {α : Type} : Except PyError α → Bool
  | .ok _ => true
  | .error _ => false

/-- Whether an evaluation-module computation raised a ValueError. -/
def isValueError {α : Type} : Except PyError α → Bool
  | .error (.valueError _) => true
  | _ => false

/-- The condition under which `_validate_metrics` rejects a custom metric:
no `greater_is_better` attribute, or an attribute value that Python `==`
distinguishes from both `True` and `False`. -/
def gibInvalid (f : MetricFn) : Bool :=
  match f.greater_is_better with
  | none => true
  | some v => !(pyEq v (.bool true) || pyEq v (.bool false))

/-- A custom metric whose score is the first element of the continuous
prediction array it receives: used to observe which array `evaluate`
passes to the generator. -/
def headScoreMetric : MetricFn :=
  ⟨fun p _ _ _ => (p.getD []).headD 0, some (.bool true)⟩

/-- A registry holding only `headScoreMetric`. -/
def revealRegistry : Registry := [("headof", headScoreMetric)]

/-- An evaluator with one un-thresholded metric group naming `headof`. -/
def revealEvaluator : Evaluator := ⟨[⟨["headof"], none, none⟩], [], 7⟩

/-!  Shared lemmas about the embedded definitions. -/

/-- For a non-negative cutoff the truncating division computed by the
binarizer is exactly `floor(n * cutoff / 100)`. -/
theorem percentile_cutoff_eq_floor (n : ℕ) (x : ℚ) (hx : 0 ≤ x) :
    Int.tdiv ((n : ℤ) * x.num) (100 * (x.den : ℤ)) = ⌊(n : ℚ) * x / 100⌋ := by
  have ha : 0 ≤ (n : ℤ) * x.num :=
    mul_nonneg (Int.ofNat_nonneg n) (Rat.num_nonneg.mpr hx)
  have hb : 0 ≤ (100 : ℤ) * (x.den : ℤ) := by positivity
  rw [Int.tdiv_eq_ediv ha hb]
  have hd : ((100 * x.den : ℕ) : ℤ) = 100 * (x.den : ℤ) := by push_cast; ring
  rw [← hd, ← Rat.floor_intCast_div_natCast ((n : ℤ) * x.num) (100 * x.den)]
  congr 1
  have hden : (x.den : ℚ) ≠ 0 := by
    exact_mod_cast x.den_nz
  have hnum : (x.num : ℚ) = x * (x.den : ℚ) :=
    (div_eq_iff hden).mp (Rat.num_div_den x)
  push_cast
  rw [div_eq_div_iff (by positivity) (by norm_num)]
  rw [hnum]
  ring

/-- Mapping `i < k` over `range n` yields `min n k` ones followed by
zeros. -/
theorem range_map_lt (n k : ℕ) :
    (List.range n).map (fun x => if x < k then (1 : ℕ) else 0) =
      List.replicate (min n k) 1 ++ List.replicate (n - min n k) 0 := by
  induction n with
  | zero => simp
  | succ n ih =>
    rw [List.range_succ, List.map_append, ih]
    by_cases h : n < k
    · have h1 : min (n + 1) k = n + 1 := min_eq_left (by omega)
      have h2 : min n k = n := min_eq_left (by omega)
      simp [h1, h2, h, List.replicate_succ' (n := n)]
    · have h1 : min (n + 1) k = k := min_eq_right (by omega)
      have h2 : min n k = k := min_eq_right (by omega)
      have h3 : n + 1 - k = (n - k) + 1 := by omega
      simp [h1, h2, h, h3, List.replicate_succ' (n := n - k), List.append_assoc]

/-- Comparison of a natural against an integer cast into ℚ. -/
theorem natCast_lt_intCast (x : ℕ) (k : ℤ) : ((x : ℚ) < (k : ℚ)) ↔ x < k.toNat := by
  constructor
  · intro h
    have h2 : ((x : ℤ) : ℚ) < (k : ℚ) := by exact_mod_cast h
    exact Int.lt_toNat.mpr (by exact_mod_cast h2)
  · intro h
    have h2 : (x : ℤ) < k := Int.lt_toNat.mp h
    exact_mod_cast h2

/-- Characterization of the percentile binarizer for non-negative
cutoffs: ones exactly at the first `floor(n * c / 100)` positions. -/
theorem generate_binary_at_x_percentile (preds : List ℚ) (c : ℚ) (hc : 0 ≤ c) :
    generate_binary_at_x preds c "percentile" =
      List.replicate (min preds.length (⌊(preds.length : ℚ) * c / 100⌋).toNat) 1 ++
        List.replicate
          (preds.length - min preds.length (⌊(preds.length : ℚ) * c / 100⌋).toNat) 0 := by
  have hcut : binaryCutoffIndex preds.length c "percentile" =
      ((⌊(preds.length : ℚ) * c / 100⌋ : ℤ) : ℚ) := by
    rw [binaryCutoffIndex, if_pos rfl, percentile_cutoff_eq_floor preds.length c hc]
  unfold generate_binary_at_x
  rw [hcut]
  have hfun : (fun x : ℕ => if (x : ℚ) < ((⌊(preds.length : ℚ) * c / 100⌋ : ℤ) : ℚ)
      then (1 : ℕ) else 0) =
      fun x => if x < (⌊(preds.length : ℚ) * c / 100⌋).toNat then 1 else 0 := by
    funext x
    simp only [natCast_lt_intCast]
  rw [hfun, range_map_lt]

/-- Characterization of the `top_n` binarizer at a natural cutoff:
ones exactly at the first `m` positions. -/
theorem generate_binary_at_x_top_n (preds : List ℚ) (m : ℕ) :
    generate_binary_at_x preds (m : ℚ) "top_n" =
      List.replicate (min preds.length m) 1 ++
        List.replicate (preds.length - min preds.length m) 0 := by
  have hcut : binaryCutoffIndex preds.length ((m : ℕ) : ℚ) "top_n" = ((m : ℕ) : ℚ) := by
    rw [binaryCutoffIndex, if_neg (by decide)]
  unfold generate_binary_at_x
  rw [hcut]
  have hfun : (fun x : ℕ => if (x : ℚ) < ((m : ℕ) : ℚ) then (1 : ℕ) else 0) =
      fun x => if x < m then 1 else 0 := by
    funext x
    simp only [Nat.cast_lt]
  rw [hfun, range_map_lt]

/-- Percentile 100 selects every position. -/
theorem generate_binary_at_x_100 (preds : List ℚ) :
    generate_binary_at_x preds 100 "percentile" = List.replicate preds.length 1 := by
  have h := generate_binary_at_x_percentile preds 100 (by norm_num)
  have h2 : ((preds.length : ℚ) * 100 / 100) = ((preds.length : ℕ) : ℚ) := by
    field_simp
  rw [h2, Int.floor_natCast] at h
  simpa using h


/-- C1: `generate_binary_at_x` returns a 0/1 vector of length n in which,
for unit percentile, exactly the first `floor(n * cutoff / 100)` positions
are 1 and, for unit top_n, exactly the first `cutoff` positions are 1;
a cutoff index of 0 gives all zeros, a cutoff index of at least n gives
all ones, and percentile 100 gives all ones.  (Python float cutoff
arithmetic is modelled as exact rational arithmetic.) -/
theorem C1_threshold_binarizer (preds : List ℚ) (c : ℚ) (m : ℕ) (hc : 0 ≤ c) :
    (generate_binary_at_x preds c "percentile").length = preds.length ∧
    generate_binary_at_x preds c "percentile" =
      List.replicate (min preds.length (⌊(preds.length : ℚ) * c / 100⌋).toNat) 1 ++
        List.replicate
          (preds.length - min preds.length (⌊(preds.length : ℚ) * c / 100⌋).toNat) 0 ∧
    generate_binary_at_x preds (m : ℚ) "top_n" =
      List.replicate (min preds.length m) 1 ++
        List.replicate (preds.length - min preds.length m) 0 ∧
    (⌊(preds.length : ℚ) * c / 100⌋ = 0 →
      generate_binary_at_x preds c "percentile" = List.replicate preds.length 0) ∧
    ((preds.length : ℤ) ≤ ⌊(preds.length : ℚ) * c / 100⌋ →
      generate_binary_at_x preds c "percentile" = List.replicate preds.length 1) ∧
    generate_binary_at_x preds 100 "percentile" = List.replicate preds.length 1 := by
  have hchar := generate_binary_at_x_percentile preds c hc
  refine ⟨?_, hchar, generate_binary_at_x_top_n preds m, ?_, ?_,
    generate_binary_at_x_100 preds⟩
  · rw [hchar]
    simp only [List.length_append, List.length_replicate]
    omega
  · intro h0
    rw [hchar, h0]
    simp
  · intro hn
    have h1 : preds.length ≤ (⌊(preds.length : ℚ) * c / 100⌋).toNat := by
      have h0 : (0 : ℤ) ≤ ⌊(preds.length : ℚ) * c / 100⌋ :=
        le_trans (Int.ofNat_nonneg preds.length) hn
      omega
    rw [hchar]
    have h2 : min preds.length (⌊(preds.length : ℚ) * c / 100⌋).toNat = preds.length :=
      min_eq_left h1
    rw [h2]
    simp

/-- Witness for C1 at predictions [1,2,3,4], percentile 50, top_n 2. -/
theorem C1_threshold_binarizer_witness :
    0 ≤ (50 : ℚ) ∧
    generate_binary_at_x [1, 2, 3, 4] 50 "percentile" = [1, 1, 0, 0] ∧
    generate_binary_at_x [1, 2, 3, 4] ((2 : ℕ) : ℚ) "top_n" = [1, 1, 0, 0] ∧
    generate_binary_at_x [1, 2, 3, 4] 0 "percentile" = [0, 0, 0, 0] ∧
    generate_binary_at_x [1, 2, 3, 4] 100 "percentile" = [1, 1, 1, 1] := by
  have h := C1_threshold_binarizer [1, 2, 3, 4] 50 2 (by norm_num)
  exact ⟨by norm_num, by decide, by decide, by decide, by decide⟩



/-- `getD` view of a ones-then-zeros vector. -/
theorem getD_ones_zeros (n k i : ℕ) (hk : k ≤ n) :
    (List.replicate k (1 : ℕ) ++ List.replicate (n - k) 0).getD i 0 =
      if i < k then 1 else 0 := by
  rw [List.getD_eq_getElem?_getD, List.getElem?_append]
  by_cases h1 : i < k
  · simp [List.getElem?_replicate, h1]
  · rw [if_neg (by simpa using h1), if_neg h1]
    by_cases h2 : i < n
    · rw [List.length_replicate, List.getElem?_replicate]
      rw [if_pos (by omega : i - k < n - k)]
      rfl
    · rw [List.length_replicate, List.getElem?_replicate]
      rw [if_neg (by omega : ¬(i - k < n - k))]
      rfl

/-- C6: for percentile cutoffs p1 < p2, every position marked 1 at p1 is
also marked 1 at p2 (the marked-position sets are nested). -/
theorem C6_threshold_monotonic (preds : List ℚ) (p1 p2 : ℚ) (i : ℕ)
    (h0 : 0 ≤ p1) (h12 : p1 < p2)
    (h1 : (generate_binary_at_x preds p1 "percentile").getD i 0 = 1) :
    (generate_binary_at_x preds p2 "percentile").getD i 0 = 1 := by
  have hc2 : 0 ≤ p2 := le_of_lt (lt_of_le_of_lt h0 h12)
  have hk : ⌊(preds.length : ℚ) * p1 / 100⌋ ≤ ⌊(preds.length : ℚ) * p2 / 100⌋ := by
    apply Int.floor_le_floor
    gcongr

  have hkn : (⌊(preds.length : ℚ) * p1 / 100⌋).toNat ≤
      (⌊(preds.length : ℚ) * p2 / 100⌋).toNat := Int.toNat_le_toNat hk
  rw [generate_binary_at_x_percentile preds p1 h0,
    getD_ones_zeros _ _ _ (min_le_left _ _)] at h1
  have hi : i < min preds.length (⌊(preds.length : ℚ) * p1 / 100⌋).toNat := by
    by_contra hcon
    simp [hcon] at h1
  rw [generate_binary_at_x_percentile preds p2 hc2,
    getD_ones_zeros _ _ _ (min_le_left _ _)]
  rw [if_pos (by omega)]

/-- Witness for C6 on six predictions at percentiles 30 and 60. -/
theorem C6_threshold_monotonic_witness :
    0 ≤ (30 : ℚ) ∧ (30 : ℚ) < 60 ∧
    (generate_binary_at_x [5, 4, 3, 2, 1, 0] 30 "percentile").getD 0 0 = 1 ∧
    (generate_binary_at_x [5, 4, 3, 2, 1, 0] 60 "percentile").getD 0 0 = 1 :=
  ⟨by norm_num, by norm_num, by decide,
    C6_threshold_monotonic [5, 4, 3, 2, 1, 0] 30 60 0 (by norm_num) (by norm_num)
      (by decide)⟩


/-- A freshly stamped record always matches its own key. -/
theorem matchesKey_stamp (mid st et : ℕ) (freq : String) (e : Evaluation) :
    matchesKey mid st et freq (stamp mid st et freq e) = true := by
  simp [matchesKey, stamp]

/-- After one write, the non-key rows are exactly the original non-key
rows (the stamped batch contributes nothing to them). -/
theorem filter_not_key_write (mid st et : ℕ) (freq : String)
    (t evs : List Evaluation) :
    (t.filter (fun e => !(matchesKey mid st et freq e)) ++
        evs.map (stamp mid st et freq)).filter
      (fun e => !(matchesKey mid st et freq e)) =
    t.filter (fun e => !(matchesKey mid st et freq e)) := by
  rw [List.filter_append]
  have h2 : (evs.map (stamp mid st et freq)).filter
      (fun e => !(matchesKey mid st et freq e)) = [] := by
    rw [List.filter_eq_nil_iff]
    intro a ha
    obtain ⟨e, _, rfl⟩ := List.mem_map.mp ha
    simp [matchesKey_stamp]
  have h1 : (t.filter (fun e => !(matchesKey mid st et freq e))).filter
      (fun e => !(matchesKey mid st et freq e)) =
      t.filter (fun e => !(matchesKey mid st et freq e)) := by
    rw [List.filter_filter]
    simp
  rw [h1, h2, List.append_nil]

/-- After one write, the key-matching rows are exactly the stamped batch. -/
theorem filter_key_write (mid st et : ℕ) (freq : String)
    (t evs : List Evaluation) :
    (t.filter (fun e => !(matchesKey mid st et freq e)) ++
        evs.map (stamp mid st et freq)).filter (matchesKey mid st et freq) =
    evs.map (stamp mid st et freq) := by
  rw [List.filter_append]
  have h1 : (t.filter (fun e => !(matchesKey mid st et freq e))).filter
      (matchesKey mid st et freq) = [] := by
    rw [List.filter_eq_nil_iff]
    intro a ha
    have := (List.mem_filter.mp ha).2
    simp only [Bool.not_eq_true'] at this
    simp [this]
  have h2 : (evs.map (stamp mid st et freq)).filter
      (matchesKey mid st et freq) = evs.map (stamp mid st et freq) := by
    rw [List.filter_eq_self]
    intro a ha
    obtain ⟨e, _, rfl⟩ := List.mem_map.mp ha
    exact matchesKey_stamp mid st et freq e
  rw [h1, h2, List.nil_append]


/-- C2: running `_write_to_db` twice with the same key and batch leaves the
second result equal to the first; the key-matching rows of the store are
exactly the stamped batch, rows not matching the key are untouched, and the
other table is untouched. -/
theorem C2_idempotent_replace (mid st et : ℕ) (freq : String)
    (evs : List Evaluation) (mt : String) (db db1 db2 : DBState)
    (h1 : _write_to_db mid st et freq evs mt db = .ok db1)
    (h2 : _write_to_db mid st et freq evs mt db1 = .ok db2) :
    db2 = db1 ∧
    (if strLower mt = "train" then db1.train else db1.test).filter
      (matchesKey mid st et freq) = evs.map (stamp mid st et freq) ∧
    (if strLower mt = "train" then db1.train else db1.test).filter
      (fun e => !(matchesKey mid st et freq e)) =
      (if strLower mt = "train" then db.train else db.test).filter
        (fun e => !(matchesKey mid st et freq e)) ∧
    (strLower mt = "train" → db1.test = db.test) ∧
    (strLower mt = "test" → db1.train = db.train) := by
  by_cases ht : strLower mt = "train"
  · simp only [_write_to_db, if_pos ht, Except.ok.injEq] at h1 h2
    subst h1
    subst h2
    refine ⟨?_, ?_, ?_, ?_, ?_⟩
    · show (⟨_, _⟩ : DBState) = ⟨_, _⟩
      rw [filter_not_key_write]
    · simp only [if_pos ht]
      exact filter_key_write mid st et freq db.train evs
    · simp only [if_pos ht]
      exact filter_not_key_write mid st et freq db.train evs
    · intro _
      rfl
    · intro h
      rw [ht] at h
      exact absurd h (by decide)
  · by_cases hte : strLower mt = "test"
    · simp only [_write_to_db, if_neg ht, if_pos hte, Except.ok.injEq] at h1 h2
      subst h1
      subst h2
      refine ⟨?_, ?_, ?_, ?_, ?_⟩
      · show (⟨_, _⟩ : DBState) = ⟨_, _⟩
        rw [filter_not_key_write]
      · simp only [if_neg ht]
        exact filter_key_write mid st et freq db.test evs
      · simp only [if_neg ht]
        exact filter_not_key_write mid st et freq db.test evs
      · intro h
        exact absurd h ht
      · intro _
        rfl
    · rw [_write_to_db, if_neg ht, if_neg hte] at h1
      exact absurd h1 (by simp)


/-- Witness for C2: a double write over a store holding one stale row for
the same key. -/
theorem C2_idempotent_replace_witness :
    _write_to_db 1 2 3 "1d" [⟨"precision@", "10_pct", 1, 4, 2, 2, 9, none, none, none, none⟩]
      "Test" ⟨[], [⟨"old_metric", "", 0, 1, 1, 1, 5, some 1, some 2, some 3, some "1d"⟩]⟩ =
      .ok ⟨[], [⟨"precision@", "10_pct", 1, 4, 2, 2, 9, some 1, some 2, some 3, some "1d"⟩]⟩ ∧
    _write_to_db 1 2 3 "1d" [⟨"precision@", "10_pct", 1, 4, 2, 2, 9, none, none, none, none⟩]
      "Test" ⟨[], [⟨"precision@", "10_pct", 1, 4, 2, 2, 9, some 1, some 2, some 3, some "1d"⟩]⟩ =
      .ok ⟨[], [⟨"precision@", "10_pct", 1, 4, 2, 2, 9, some 1, some 2, some 3, some "1d"⟩]⟩ ∧
    ((⟨[], [⟨"precision@", "10_pct", 1, 4, 2, 2, 9, some 1, some 2, some 3, some "1d"⟩]⟩ : DBState) =
      ⟨[], [⟨"precision@", "10_pct", 1, 4, 2, 2, 9, some 1, some 2, some 3, some "1d"⟩]⟩ ∧
    (if strLower "Test" = "train" then
        (⟨[], [⟨"precision@", "10_pct", 1, 4, 2, 2, 9, some 1, some 2, some 3, some "1d"⟩]⟩ : DBState).train
      else
        (⟨[], [⟨"precision@", "10_pct", 1, 4, 2, 2, 9, some 1, some 2, some 3, some "1d"⟩]⟩ : DBState).test).filter
      (matchesKey 1 2 3 "1d") =
      [⟨"precision@", "10_pct", 1, 4, 2, 2, 9, none, none, none, none⟩].map (stamp 1 2 3 "1d") ∧
    (if strLower "Test" = "train" then
        (⟨[], [⟨"precision@", "10_pct", 1, 4, 2, 2, 9, some 1, some 2, some 3, some "1d"⟩]⟩ : DBState).train
      else
        (⟨[], [⟨"precision@", "10_pct", 1, 4, 2, 2, 9, some 1, some 2, some 3, some "1d"⟩]⟩ : DBState).test).filter
      (fun e => !(matchesKey 1 2 3 "1d" e)) =
      (if strLower "Test" = "train" then
        (⟨[], [⟨"old_metric", "", 0, 1, 1, 1, 5, some 1, some 2, some 3, some "1d"⟩]⟩ : DBState).train
      else
        (⟨[], [⟨"old_metric", "", 0, 1, 1, 1, 5, some 1, some 2, some 3, some "1d"⟩]⟩ : DBState).test).filter
        (fun e => !(matchesKey 1 2 3 "1d" e)) ∧
    (strLower "Test" = "train" →
      (⟨[], [⟨"precision@", "10_pct", 1, 4, 2, 2, 9, some 1, some 2, some 3, some "1d"⟩]⟩ : DBState).test =
      (⟨[], [⟨"old_metric", "", 0, 1, 1, 1, 5, some 1, some 2, some 3, some "1d"⟩]⟩ : DBState).test) ∧
    (strLower "Test" = "test" →
      (⟨[], [⟨"precision@", "10_pct", 1, 4, 2, 2, 9, some 1, some 2, some 3, some "1d"⟩]⟩ : DBState).train =
      (⟨[], [⟨"old_metric", "", 0, 1, 1, 1, 5, some 1, some 2, some 3, some "1d"⟩]⟩ : DBState).train)) :=
  ⟨rfl, rfl,
    C2_idempotent_replace 1 2 3 "1d"
      [⟨"precision@", "10_pct", 1, 4, 2, 2, 9, none, none, none, none⟩] "Test"
      ⟨[], [⟨"old_metric", "", 0, 1, 1, 1, 5, some 1, some 2, some 3, some "1d"⟩]⟩
      ⟨[], [⟨"precision@", "10_pct", 1, 4, 2, 2, 9, some 1, some 2, some 3, some "1d"⟩]⟩
      ⟨[], [⟨"precision@", "10_pct", 1, 4, 2, 2, 9, some 1, some 2, some 3, some "1d"⟩]⟩
      rfl rfl⟩


/-- Every record built by the parameter loop carries the three counts it
was given. -/
theorem genParamsLoop_counts (f : MetricFn) (seed : ℤ) (metric : String)
    (tc : Params) (proba : Option (List ℚ)) (binary : List ℕ)
    (labels : List Lbl) (mt : String) (nle nlat npl : ℕ)
    (ps : List Params) (evs : List Evaluation)
    (h : genParamsLoop f seed metric tc proba binary labels mt nle nlat npl ps = .ok evs) :
    ∀ e ∈ evs, e.num_labeled_examples = nle ∧
      e.num_labeled_above_threshold = nlat ∧ e.num_positive_labels = npl := by
  induction ps generalizing evs with
  | nil =>
    rw [genParamsLoop] at h
    injection h with h
    subst h
    intro e he
    exact absurd he (List.not_mem_nil e)
  | cons p ps ih =>
    rw [genParamsLoop] at h
    by_cases hmt : strLower mt = "train" ∨ strLower mt = "test"
    · rw [if_pos hmt] at h
      cases hrec : genParamsLoop f seed metric tc proba binary labels mt nle nlat npl ps with
      | ok rest =>
        rw [hrec] at h
        injection h with h
        subst h
        intro e he
        rcases List.mem_cons.mp he with h' | h'
        · subst h'
          exact ⟨rfl, rfl, rfl⟩
        · exact ih rest hrec e h'
      | error err =>
        rw [hrec] at h
        exact absurd h (by simp)
    · rw [if_neg hmt] at h
      exact absurd h (by simp)

/-- Every record built by the metric loop carries the three counts it was
given. -/
theorem genMetricsLoop_counts (available : Registry) (seed : ℤ)
    (params : List Params) (tc : Params) (proba : Option (List ℚ))
    (binary : List ℕ) (labels : List Lbl) (mt : String) (nle nlat npl : ℕ)
    (names : List String) (evs : List Evaluation)
    (h : genMetricsLoop available seed params tc proba binary labels mt nle nlat npl names = .ok evs) :
    ∀ e ∈ evs, e.num_labeled_examples = nle ∧
      e.num_labeled_above_threshold = nlat ∧ e.num_positive_labels = npl := by
  induction names generalizing evs with
  | nil =>
    rw [genMetricsLoop] at h
    injection h with h
    subst h
    intro e he
    exact absurd he (List.not_mem_nil e)
  | cons m ms ih =>
    rw [genMetricsLoop] at h
    cases hlook : lookupReg available m with
    | some f =>
      simp only [hlook] at h
      cases hp : genParamsLoop f seed m tc proba binary labels mt nle nlat npl params with
      | ok evs1 =>
        simp only [hp] at h
        cases hrec : genMetricsLoop available seed params tc proba binary labels mt nle nlat npl ms with
        | ok rest =>
          simp only [hrec] at h
          injection h with h
          subst h
          intro e he
          rcases List.mem_append.mp he with h' | h'
          · exact genParamsLoop_counts f seed m tc proba binary labels mt nle nlat npl params evs1 hp e h'
          · exact ih rest hrec e h'
        | error err =>
          simp only [hrec] at h
          exact absurd h (by simp)
      | error err =>
        simp only [hp] at h
        exact absurd h (by simp)
    | none =>
      simp only [hlook] at h
      exact absurd h (by simp)

/-- C4: every record returned by a successful `_generate_evaluations` call
carries `num_labeled_examples = len(labels)`,
`num_labeled_above_threshold = count of 1s in the binary predictions` and
`num_positive_labels = count of 1s in the labels`; in particular the three
counts agree across all records of the call. -/
theorem C4_count_invariants (available : Registry) (seed : ℤ)
    (names : List String) (params : List Params) (tc : Params)
    (proba : Option (List ℚ)) (binary : List ℕ) (labels : List Lbl)
    (mt : String) (evs : List Evaluation) (e : Evaluation)
    (h : _generate_evaluations available seed names params tc proba binary labels mt = .ok evs)
    (he : e ∈ evs) :
    e.num_labeled_examples = labels.length ∧
    e.num_labeled_above_threshold = binary.count 1 ∧
    e.num_positive_labels = labels.countP (fun l => l == some 1) := by
  exact genMetricsLoop_counts available seed params tc proba binary labels mt
    labels.length (binary.count 1) (labels.countP (fun l => l == some 1))
    names evs h e he

/-- Witness for C4: one registered metric, three labels one of which is
NaN, binary predictions [1,0,1]. -/
theorem C4_count_invariants_witness :
    _generate_evaluations [("m1", externalMetric)] 9 ["m1"] [[]] []
      (some [1, 2, 3]) [1, 0, 1] [some 1, some 0, none] "Test" =
      .ok [⟨"m1", "", 0, 3, 2, 1, 9, none, none, none, none⟩] ∧
    (⟨"m1", "", 0, 3, 2, 1, 9, none, none, none, none⟩ : Evaluation) ∈
      [(⟨"m1", "", 0, 3, 2, 1, 9, none, none, none, none⟩ : Evaluation)] ∧
    ((⟨"m1", "", 0, 3, 2, 1, 9, none, none, none, none⟩ : Evaluation).num_labeled_examples =
        ([some 1, some 0, none] : List Lbl).length ∧
      (⟨"m1", "", 0, 3, 2, 1, 9, none, none, none, none⟩ : Evaluation).num_labeled_above_threshold =
        ([1, 0, 1] : List ℕ).count 1 ∧
      (⟨"m1", "", 0, 3, 2, 1, 9, none, none, none, none⟩ : Evaluation).num_positive_labels =
        ([some 1, some 0, none] : List Lbl).countP (fun l => l == some 1)) :=
  ⟨rfl, List.mem_singleton.mpr rfl,
    C4_count_invariants [("m1", externalMetric)] 9 ["m1"] [[]] []
      (some [1, 2, 3]) [1, 0, 1] [some 1, some 0, none] "Test"
      [⟨"m1", "", 0, 3, 2, 1, 9, none, none, none, none⟩]
      ⟨"m1", "", 0, 3, 2, 1, 9, none, none, none, none⟩
      rfl (List.mem_singleton.mpr rfl)⟩


/-- C3: an evaluate call whose metric group names an unregistered metric
fails with no records persisted — but with AttributeError, not the
documented UnknownMetricError, because the local parameter `metrics`
shadows the metrics module at the raise site. -/
theorem C3_unknown_metric_raises_attribute_error :
    ModelEvaluator.evaluate available_metrics ⟨[⟨["bogus_metric"], none, none⟩], [], 42⟩
      [1] [some 1] 1 2 3 "1d" "Test" ⟨[], []⟩ = .error .attributeError ∧
    PyError.attributeError ≠ PyError.unknownMetricError :=
  ⟨rfl, by decide⟩

/-- C5 (amended): for a metric group without a thresholds key, `evaluate`
issues exactly one generator call, whose continuous prediction array is the
original input-order scores (`some proba`, not the sorted copy and not
NaN-masked), whose labels are the sorted unmasked labels, and whose binary
predictions are all ones. -/
theorem C5_full_population_call (proba probaSorted : List ℚ)
    (labelsSorted : List Lbl) (mt : String) (g : MetricGroup)
    (h : g.thresholds = none) :
    genCallsForGroup proba probaSorted labelsSorted mt g =
      [{ metricNames := g.metrics
         parameters := g.parameters.getD [[]]
         threshold_config := []
         predictions_proba := some proba
         predictions_binary := List.replicate probaSorted.length 1
         labels := labelsSorted
         matrix_type := mt }] := by
  simp [genCallsForGroup, h, generate_binary_at_x_100]

/-- Witness for the amended C5 at a two-element group. -/
theorem C5_full_population_call_witness :
    (⟨["m1"], none, none⟩ : MetricGroup).thresholds = none ∧
    genCallsForGroup [3, 7] [7, 3] [some 1, some 0] "Test" ⟨["m1"], none, none⟩ =
      [⟨["m1"], [[]], [], some [3, 7], [1, 1], [some 1, some 0], "Test"⟩] :=
  ⟨rfl, C5_full_population_call [3, 7] [7, 3] [some 1, some 0] "Test"
    ⟨["m1"], none, none⟩ rfl⟩

/-- Counterexample to C5 as stated: with a metric that reports the head of
the array it receives, `evaluate` on scores [1, 9] records value 1 — the
head of the original input — although the co-sort returns [9, 1], whose
head is 9.  The array passed to the generator is therefore not the sorted
sequence. -/
theorem C5_sorted_scores_counterexample :
    ModelEvaluator.evaluate revealRegistry revealEvaluator [1, 9] [some 0, some 1]
      5 6 7 "1d" "Test" ⟨[], []⟩ =
      .ok ⟨[], [⟨"headof", "", 1, 2, 2, 1, 7, some 5, some 6, some 7, some "1d"⟩]⟩ ∧
    sort_predictions_and_labels [1, 9] [some 0, some 1] 7 = ([9, 1], [some 1, some 0]) ∧
    headScoreMetric.call (some [9, 1]) [1, 1] [some 1, some 0] [] = 9 ∧
    (1 : ℚ) ≠ 9 :=
  ⟨rfl, rfl, rfl, by decide⟩

/-- C9: a falsy `sort_seed` argument (absent or zero) is replaced by the
wall-clock value; a non-zero seed is stored as given. -/
theorem C9_falsy_sort_seed (R : Registry) (mg tg : List MetricGroup) (t s : ℤ)
    (hs : s ≠ 0) :
    ModelEvaluator.init R mg tg (some 0) none t = .ok (R, ⟨mg, tg, t⟩) ∧
    ModelEvaluator.init R mg tg none none t = .ok (R, ⟨mg, tg, t⟩) ∧
    ModelEvaluator.init R mg tg (some s) none t = .ok (R, ⟨mg, tg, s⟩) := by
  refine ⟨rfl, rfl, ?_⟩
  simp [ModelEvaluator.init, hs]

/-- Witness for C9 with seed 12345 and wall clock 1700000000. -/
theorem C9_falsy_sort_seed_witness :
    (12345 : ℤ) ≠ 0 ∧
    (ModelEvaluator.init available_metrics [] [] (some 0) none 1700000000 =
      .ok (available_metrics, ⟨[], [], 1700000000⟩) ∧
    ModelEvaluator.init available_metrics [] [] none none 1700000000 =
      .ok (available_metrics, ⟨[], [], 1700000000⟩) ∧
    ModelEvaluator.init available_metrics [] [] (some 12345) none 1700000000 =
      .ok (available_metrics, ⟨[], [], 12345⟩)) :=
  ⟨by decide, C9_falsy_sort_seed available_metrics [] [] 1700000000 12345 (by decide)⟩


/-- `_validate_metrics` raises ValueError whenever some supplied metric
fails the greater-is-better check. -/
theorem validate_metrics_invalid (cm : List (String × MetricFn))
    (name : String) (f : MetricFn) (hmem : (name, f) ∈ cm)
    (hbad : gibInvalid f = true) :
    isValueError (_validate_metrics cm) = true := by
  induction cm with
  | nil => exact absurd hmem (List.not_mem_nil _)
  | cons hd rest ih =>
    obtain ⟨n0, f0⟩ := hd
    rw [_validate_metrics]
    split
    · rfl
    · rename_i v hg
      split
      · rename_i hok
        rcases List.mem_cons.mp hmem with h' | h'
        · exfalso
          have hf : f = f0 := congrArg Prod.snd h'
          rw [gibInvalid, hf, hg] at hbad
          simp [hok] at hbad
        · exact ih h'
      · rfl

/-- A failing validation propagates out of the constructor before the
registry update. -/
theorem init_error_of_validate (R : Registry) (mg tg : List MetricGroup)
    (ss : Option ℤ) (t : ℤ) (cm : List (String × MetricFn)) (e : PyError)
    (hne : cm.isEmpty = false) (he : _validate_metrics cm = .error e) :
    ModelEvaluator.init R mg tg ss (some cm) t = .error e := by
  rw [ModelEvaluator.init.eq_def]
  simp [hne, he]

/-- C7 (amended): construction fails with ValueError at registration time
(so the registry is never updated) whenever a supplied metric lacks the
`greater_is_better` attribute or its value differs under Python `==` from
both True and False; values such as the integer 1 that compare equal to
True are accepted even though they are not booleans (see the
counterexample). -/
theorem C7_gib_validation (R : Registry) (mg tg : List MetricGroup)
    (ss : Option ℤ) (t : ℤ) (cm : List (String × MetricFn))
    (name : String) (f : MetricFn) (hmem : (name, f) ∈ cm)
    (hbad : gibInvalid f = true) :
    isValueError (ModelEvaluator.init R mg tg ss (some cm) t) = true := by
  have hne : cm.isEmpty = false := by
    cases cm with
    | nil => exact absurd hmem (List.not_mem_nil _)
    | cons a l => rfl
  have hv := validate_metrics_invalid cm name f hmem hbad
  cases hval : _validate_metrics cm with
  | ok u =>
    rw [hval] at hv
    exact absurd hv (by simp [isValueError])
  | error e =>
    rw [hval] at hv
    rw [init_error_of_validate R mg tg ss t cm e hne hval]
    cases e with
    | valueError msg => rfl
    | nameError => exact absurd hv (by simp [isValueError])
    | attributeError => exact absurd hv (by simp [isValueError])
    | unknownMetricError => exact absurd hv (by simp [isValueError])

/-- Witness for the amended C7: a custom metric without the attribute. -/
theorem C7_gib_validation_witness :
    (("no_gib", (⟨fun _ _ _ _ => 0, none⟩ : MetricFn)) ∈
      [("no_gib", (⟨fun _ _ _ _ => 0, none⟩ : MetricFn))]) ∧
    gibInvalid ⟨fun _ _ _ _ => 0, none⟩ = true ∧
    isValueError (ModelEvaluator.init available_metrics [] [] none
      (some [("no_gib", ⟨fun _ _ _ _ => 0, none⟩)]) 7) = true :=
  ⟨List.mem_singleton.mpr rfl, rfl,
    C7_gib_validation available_metrics [] [] none 7
      [("no_gib", ⟨fun _ _ _ _ => 0, none⟩)] "no_gib" ⟨fun _ _ _ _ => 0, none⟩
      (List.mem_singleton.mpr rfl) rfl⟩

/-- Counterexample to C7 as stated: a metric whose `greater_is_better` is
the integer 1 — not a boolean — passes validation (`1 in (True, False)`
holds under Python `==`), construction succeeds, and the metric is added
to the registry. -/
theorem C7_nonbool_gib_counterexample :
    PyVal.isBool (PyVal.int 1) = false ∧
    ModelEvaluator.init available_metrics [] [] none
      (some [("custom_m", ⟨fun _ _ _ _ => 0, some (.int 1)⟩)]) 7 =
      .ok (available_metrics ++ [("custom_m", ⟨fun _ _ _ _ => 0, some (.int 1)⟩)],
        ⟨[], [], 7⟩) :=
  ⟨rfl, rfl⟩


/-- C8: a matrix_type that lower-cases to neither train nor test makes
`evaluate` raise ValueError before any record is generated or persisted,
and neither the generator nor the writer falls back to a default table —
each raises (NameError, `table_obj` unbound) instead. -/
theorem C8_unrecognized_matrix_type (reg : Registry) (ev : Evaluator)
    (proba : List ℚ) (labels : List Lbl) (mid st et : ℕ) (freq mt : String)
    (db : DBState) (evs : List Evaluation) (seed : ℤ) (name : String)
    (f : MetricFn) (names : List String) (p : Params) (ps : List Params)
    (tc : Params) (proba2 : Option (List ℚ)) (binary : List ℕ)
    (labels2 : List Lbl)
    (h1 : strLower mt ≠ "train") (h2 : strLower mt ≠ "test")
    (hf : lookupReg reg name = some f) :
    ModelEvaluator.evaluate reg ev proba labels mid st et freq mt db =
      .error (.valueError ("metric set " ++ mt ++
        " unrecognized. Please select Train or Test")) ∧
    _write_to_db mid st et freq evs mt db = .error .nameError ∧
    _generate_evaluations reg seed (name :: names) (p :: ps) tc proba2 binary
      labels2 mt = .error .nameError := by
  refine ⟨?_, ?_, ?_⟩
  · rw [ModelEvaluator.evaluate.eq_def]
    simp [h1, h2]
  · rw [_write_to_db, if_neg h1, if_neg h2]
  · simp [_generate_evaluations, genMetricsLoop, genParamsLoop, hf, h1, h2]

/-- Witness for C8 at matrix_type "Validate". -/
theorem C8_unrecognized_matrix_type_witness :
    strLower "Validate" ≠ "train" ∧ strLower "Validate" ≠ "test" ∧
    lookupReg [("m1", externalMetric)] "m1" = some externalMetric ∧
    (ModelEvaluator.evaluate [("m1", externalMetric)] ⟨[], [], 0⟩ [1] [some 1]
        1 2 3 "1d" "Validate" ⟨[], []⟩ =
      .error (.valueError ("metric set " ++ "Validate" ++
        " unrecognized. Please select Train or Test")) ∧
    _write_to_db 1 2 3 "1d" [] "Validate" ⟨[], []⟩ = .error .nameError ∧
    _generate_evaluations [("m1", externalMetric)] 0 ("m1" :: []) ([] :: [])
      [] none [] [] "Validate" = .error .nameError) :=
  ⟨by decide, by decide, rfl,
    C8_unrecognized_matrix_type [("m1", externalMetric)] ⟨[], [], 0⟩ [1]
      [some 1] 1 2 3 "1d" "Validate" ⟨[], []⟩ [] 0 "m1" externalMetric []
      [] [] [] none [] [] (by decide) (by decide) rfl⟩

/-- C10: `available_metrics` is class-level shared state — constructing one
evaluator with a custom metric updates the single registry through which
every instance (the arbitrary `evA` included) resolves metrics, so a name
unresolvable before the construction becomes resolvable for all of them. -/
theorem C10_shared_registry (R : Registry) (mg tg : List MetricGroup)
    (name : String) (f : MetricFn) (t : ℤ) (evA : Evaluator)
    (hval : _validate_metrics [(name, f)] = .ok ())
    (hfresh : lookupReg R name = none) :
    ModelEvaluator.init R mg tg none (some [(name, f)]) t =
      .ok (R ++ [(name, f)], ⟨mg, tg, t⟩) ∧
    ModelEvaluator.resolveMetric (R ++ [(name, f)]) evA name = some f ∧
    ModelEvaluator.resolveMetric R evA name = none := by
  have hfind : R.find? (fun p => p.1 == name) = none := by
    cases hcase : R.find? (fun p => p.1 == name) with
    | none => rfl
    | some p =>
      rw [lookupReg, hcase] at hfresh
      simp at hfresh
  have hany : R.any (fun p => p.1 == name) = false := by
    rw [List.any_eq_false]
    intro p hp
    have h := List.find?_eq_none.mp hfind p hp
    simpa using h
  refine ⟨?_, ?_, hfresh⟩
  · rw [ModelEvaluator.init.eq_def]
    simp [hval, registryUpdate, regSet, hany]
  · rw [ModelEvaluator.resolveMetric, lookupReg, List.find?_append, hfind]
    simp

/-- Witness for C10: registering `custom_m` over the builtin registry. -/
theorem C10_shared_registry_witness :
    _validate_metrics [("custom_m", externalMetric)] = .ok () ∧
    lookupReg available_metrics "custom_m" = none ∧
    (ModelEvaluator.init available_metrics [] [] none
        (some [("custom_m", externalMetric)]) 3 =
      .ok (available_metrics ++ [("custom_m", externalMetric)], ⟨[], [], 3⟩) ∧
    ModelEvaluator.resolveMetric (available_metrics ++ [("custom_m", externalMetric)])
      ⟨[], [], 0⟩ "custom_m" = some externalMetric ∧
    ModelEvaluator.resolveMetric available_metrics ⟨[], [], 0⟩ "custom_m" = none) :=
  ⟨rfl, rfl,
    C10_shared_registry available_metrics [] [] "custom_m" externalMetric 3
      ⟨[], [], 0⟩ rfl rfl⟩

end Triage
